import Mathlib

/-!
Verification of the CRUD item application.

Frontend: `packages/frontend/src/App.js` — a single React component with
state `data`, `loading`, `error`, `newItem`, `deleteLoading`, handlers
`fetchData`, `handleSubmit`, `handleDelete`, and a render section.
We embed the component state as a structure, each handler as a pure
function from the state and the settled fetch outcome to the next state,
and the JSX render section as a function from state to an abstract view.

Backend: the Express handlers live in `packages/backend/src/app.js`,
which is not part of the sources available here (only its test suite is);
those handlers are modelled from the specification, as marked on each
definition.
-/

namespace ItemApp

/-- An item record as used by the frontend and stored by the backend:
`id` (autoincrement integer), `name`, `created_at` (server-assigned text). -/
structure Item where
  id : Nat
  name : String
  created_at : String
deriving Repr, DecidableEq

/-- Outcome of an awaited `fetch` as observed by the `try/catch` blocks in
`App.js`: the response resolved with `ok` and a JSON payload `a`, resolved
with `ok` false (`!response.ok`), or the promise rejected with an error
whose `message` is `msg`. -/
inductive FetchResult (α : Type) where
  | ok (value : α)
  | httpError
  | reject (msg : String)
deriving Repr, DecidableEq

/-- Drop leading whitespace characters from a character list; auxiliary to
`jsTrim`. -/
def dropWs : List Char → List Char
  | [] => []
  | c :: rest => if c.isWhitespace then dropWs rest else c :: rest

/-- The JavaScript `String.prototype.trim()` used by `App.js`
(`newItem.trim()`) and by the backend validation: remove leading and
trailing whitespace. -/
def jsTrim (s : String) : String :=
  String.mk (dropWs (dropWs s.data.reverse).reverse)

/-- The component state of `App` (`App.js` lines 25–29):
`data`, `loading`, `error`, `newItem`, `deleteLoading`. -/
structure AppState where
  data : List Item
  loading : Bool
  error : Option String
  newItem : String
  deleteLoading : Option Nat
deriving Repr, DecidableEq

/-- The initial state from the `useState` initializers:
`data=[]`, `loading=true`, `error=null`, `newItem=''`, `deleteLoading=null`. -/
def initialState : AppState :=
  { data := [], loading := true, error := none, newItem := "", deleteLoading := none }

/-- Requests the component issues, abstracting the `fetch` calls in
`App.js`: `GET /api/items`, `POST /api/items` with body
`JSON.stringify({name})`, and `DELETE /api/items/:id`. -/
inductive ApiRequest where
  | list
  | create (name : String)
  | delete (id : Nat)
deriving Repr, DecidableEq

/-- The requests issued on mount: `useEffect(() => { fetchData(); }, [])`
(`App.js` lines 31–33) runs `fetchData` exactly once, and `fetchData`
performs the single call `fetch('/api/items')` (line 38). -/
def mountRequests : List ApiRequest := [ApiRequest.list]

/-- Entry of `fetchData` (`App.js` line 37): `setLoading(true)` before the
fetch is awaited. -/
def fetchDataStart (s : AppState) : AppState := { s with loading := true }

/-- Settling of `fetchData` (`App.js` lines 38–50): on an ok response set
`data` to the parsed array and clear `error`; a non-ok response throws
`Error('Network response was not ok')` and a rejection carries its own
message, both caught and stored as `'Failed to fetch data: ' + err.message`;
the `finally` block sets `loading` to false in every case. -/
def fetchDataSettle (s : AppState) (resp : FetchResult (List Item)) : AppState :=
  match resp with
  | .ok items => { s with data := items, error := none, loading := false }
  | .httpError =>
      { s with error := some ("Failed to fetch data: " ++ "Network response was not ok"),
               loading := false }
  | .reject msg =>
      { s with error := some ("Failed to fetch data: " ++ msg), loading := false }

/-- A completed run of `fetchData`: the entry effect followed by the
settling of its single fetch. -/
def fetchData (s : AppState) (resp : FetchResult (List Item)) : AppState :=
  fetchDataSettle (fetchDataStart s) resp

/-- The request issued by `handleSubmit` (`App.js` lines 53–64): nothing
when the trimmed draft is empty (`if (!newItem.trim()) return`), otherwise
a Create whose body is `JSON.stringify({ name: newItem })` — the draft
untrimmed. -/
def submitRequest (s : AppState) : Option ApiRequest :=
  if jsTrim s.newItem = "" then none else some (ApiRequest.create s.newItem)

/-- A completed run of `handleSubmit` (`App.js` lines 53–77): blank draft
returns before any effect; on an ok response the returned item is appended
(`setData([...data, result])`) and the draft cleared; a non-ok response
throws `Error('Failed to add item')` and a rejection carries its message,
both caught and stored as `'Error adding item: ' + err.message`. -/
def handleSubmit (s : AppState) (resp : FetchResult Item) : AppState :=
  if jsTrim s.newItem = "" then s
  else
    match resp with
    | .ok item => { s with data := s.data ++ [item], newItem := "" }
    | .httpError =>
        { s with error := some ("Error adding item: " ++ "Failed to add item") }
    | .reject msg =>
        { s with error := some ("Error adding item: " ++ msg) }

/-- The request issued by `handleDelete` (`App.js` lines 82–84):
`fetch('/api/items/' + id, {method: 'DELETE'})`, issued unconditionally. -/
def deleteRequest (id : Nat) : ApiRequest := ApiRequest.delete id

/-- Entry of `handleDelete` (`App.js` line 80): `setDeleteLoading(id)`
before the fetch is awaited. -/
def handleDeleteStart (s : AppState) (id : Nat) : AppState :=
  { s with deleteLoading := some id }

/-- Settling of `handleDelete` (`App.js` lines 81–98): on an ok response
keep every item whose id differs (`data.filter(item => item.id !== id)`)
and clear `error`; a non-ok response throws `Error('Failed to delete item')`
and a rejection carries its message, both stored as
`'Error deleting item: ' + err.message`; the `finally` block sets
`deleteLoading` back to null in every case. -/
def handleDeleteSettle (s : AppState) (id : Nat) (resp : FetchResult Unit) : AppState :=
  let s' :=
    match resp with
    | .ok _ => { s with data := s.data.filter (fun item => item.id != id), error := none }
    | .httpError =>
        { s with error := some ("Error deleting item: " ++ "Failed to delete item") }
    | .reject msg =>
        { s with error := some ("Error deleting item: " ++ msg) }
  { s' with deleteLoading := none }

/-- A completed run of `handleDelete` for a given id: the entry effect
followed by the settling of its single fetch. -/
def handleDelete (s : AppState) (id : Nat) (resp : FetchResult Unit) : AppState :=
  handleDeleteSettle (handleDeleteStart s id) id resp

/-- The list region of the render (`App.js` lines 149–185): hidden, a table
of the rows, or the empty-state message `No items found. Add some!`. -/
inductive ListRegion where
  | hidden
  | table (rows : List Item)
  | emptyMessage
deriving Repr, DecidableEq

/-- The abstract view produced by the render section: whether the spinner
is mounted, the text of the error alert when mounted, and the list region. -/
structure RenderView where
  spinner : Bool
  errorAlert : Option String
  listRegion : ListRegion
deriving Repr, DecidableEq

/-- The render section of `App` (`App.js` lines 141–185) as a function of
state: the spinner is guarded by `loading` (line 141), the error alert by
`error` alone (line 147), and the list region by `!loading && !error`
(line 149), showing the table when `data.length > 0` and the empty-state
message otherwise. -/
def render (s : AppState) : RenderView :=
  { spinner := s.loading
  , errorAlert := s.error
  , listRegion :=
      if s.loading = false ∧ s.error = none then
        if s.data.length > 0 then ListRegion.table s.data else ListRegion.emptyMessage
      else ListRegion.hidden }

/-- The delete button of one table row (`App.js` lines 164–173): disabled
exactly when `deleteLoading === item.id`, labelled `Deleting...` then and
`Delete` otherwise. -/
structure DeleteButton where
  disabled : Bool
  label : String
deriving Repr, DecidableEq

/-- The per-row delete button as rendered for `item` in state `s`
(`App.js` lines 164–173). -/
def rowDeleteButton (s : AppState) (item : Item) : DeleteButton :=
  { disabled := s.deleteLoading = some item.id
  , label := if s.deleteLoading = some item.id then "Deleting..." else "Delete" }

/-- An event after mount, used to state invariants over every sequence of
user actions: a completed create submission or a completed delete. -/
inductive Event where
  | submit (resp : FetchResult Item)
  | delete (id : Nat) (resp : FetchResult Unit)
  | editDraft (text : String)

/-- Apply one post-mount event to the state: `handleSubmit`,
`handleDelete`, or the draft text field `onChange` (`App.js` line 119). -/
def applyEvent (s : AppState) (e : Event) : AppState :=
  match e with
  | .submit resp => handleSubmit s resp
  | .delete id resp => handleDelete s id resp
  | .editDraft text => { s with newItem := text }

/-- Apply a whole sequence of post-mount events. -/
def runEvents (s : AppState) (es : List Event) : AppState :=
  es.foldl applyEvent s

/-- The `name` field of a Create request body as the backend sees it:
absent, present but not a string, or a string. -/
inductive NameField where
  | absent
  | nonString
  | str (s : String)
deriving Repr, DecidableEq

/-- The backend store: the `items` table rows in insertion order together
with the autoincrement counter for the next primary key. -/
structure Store where
  items : List Item
  nextId : Nat
deriving Repr, DecidableEq

/-- A JSON response of the API: a status code together with either an item,
an item list, an `{error: ...}` body, or a `{message: ...}` body. -/
inductive ApiResponse where
  | itemBody (status : Nat) (item : Item)
  | listBody (status : Nat) (items : List Item)
  | errorBody (status : Nat) (error : String)
  | messageBody (status : Nat) (message : String)
deriving Repr, DecidableEq

/-- Modelled from the spec: the backend List handler
(`GET /api/items` in `packages/backend/src/app.js`, not among the available
sources) returns 200 with the array of stored items and performs no
mutation; the ordering clause (`created_at` descending) is kept as the
store's own row order. -/
def listItems (store : Store) : ApiResponse :=
  ApiResponse.listBody 200 store.items

/-- Modelled from the spec: the backend Create handler
(`POST /api/items` in `packages/backend/src/app.js`, not among the
available sources). Validation: `name` must be present, of string type and
non-blank after trimming, otherwise 400 `{error: "Item name is required"}`
with no store mutation. On valid input the store assigns `id` (the
autoincrement counter) and `created_at` (the current timestamp `now`), the
row is appended, and the created item is returned with 201. -/
def createItem (store : Store) (body : NameField) (now : String) : Store × ApiResponse :=
  match body with
  | .str s =>
      if jsTrim s = "" then
        (store, ApiResponse.errorBody 400 "Item name is required")
      else
        let item : Item := { id := store.nextId, name := s, created_at := now }
        ({ items := store.items ++ [item], nextId := store.nextId + 1 },
         ApiResponse.itemBody 201 item)
  | _ => (store, ApiResponse.errorBody 400 "Item name is required")

/-- Modelled from the spec: the backend Delete handler
(`DELETE /api/items/:id` in `packages/backend/src/app.js`, not among the
available sources). The `id` path parameter is an opaque string passed to
the store without coercion, so a row matches when its integer key prints as
that string. First look the item up; if absent, 404
`{error: "Item not found"}` and no delete. If present, execute the delete;
zero rows affected is again 404, one or more rows affected is 200
`{message: "Item deleted successfully"}`. -/
def deleteItem (store : Store) (idParam : String) : Store × ApiResponse :=
  match store.items.find? (fun it => toString it.id == idParam) with
  | none => (store, ApiResponse.errorBody 404 "Item not found")
  | some _ =>
      let kept := store.items.filter (fun it => toString it.id != idParam)
      let affected := store.items.length - kept.length
      if affected = 0 then
        (store, ApiResponse.errorBody 404 "Item not found")
      else
        ({ store with items := kept },
         ApiResponse.messageBody 200 "Item deleted successfully")

/-- C2: on mount the UI starts with `loading=true` and issues exactly one
List request; an ok List response sets `items`, clears `error` and ends
loading; a non-ok response or a rejection stores an error prefixed
`Failed to fetch data: ` and ends loading. -/
theorem C2_mount_and_list (s : AppState) :
    initialState.loading = true
    ∧ mountRequests = [ApiRequest.list]
    ∧ (∀ items, fetchData s (.ok items)
        = { s with data := items, loading := false, error := none })
    ∧ fetchData s .httpError
        = { s with
            loading := false
            error := some ("Failed to fetch data: " ++ "Network response was not ok") }
    ∧ (∀ msg, fetchData s (.reject msg)
        = { s with loading := false, error := some ("Failed to fetch data: " ++ msg) }) := by
  refine ⟨rfl, rfl, fun items => ?_, ?_, fun msg => ?_⟩ <;> rfl

/-- Closed instance of `C2_mount_and_list` at a concrete state and
concrete responses. -/
theorem C2_mount_and_list_witness :
    fetchData initialState (.ok [⟨1, "Widget", "t"⟩])
      = { initialState with data := [⟨1, "Widget", "t"⟩], loading := false, error := none }
    ∧ fetchData initialState (.reject "boom")
      = { initialState with
          loading := false
          error := some ("Failed to fetch data: " ++ "boom") } :=
  ⟨(C2_mount_and_list initialState).2.2.1 [⟨1, "Widget", "t"⟩],
   (C2_mount_and_list initialState).2.2.2.2 "boom"⟩

/-- C3: with a non-blank draft, submit issues a Create request; an ok
response appends the returned item and clears the draft; a non-ok response
or a rejection stores an error prefixed `Error adding item: ` and leaves
`data` and the draft unchanged. -/
theorem C3_submit_nonblank (s : AppState) (item : Item) (msg : String)
    (h : jsTrim s.newItem ≠ "") :
    submitRequest s = some (ApiRequest.create s.newItem)
    ∧ handleSubmit s (.ok item) = { s with data := s.data ++ [item], newItem := "" }
    ∧ handleSubmit s .httpError
        = { s with error := some ("Error adding item: " ++ "Failed to add item") }
    ∧ handleSubmit s (.reject msg)
        = { s with error := some ("Error adding item: " ++ msg) } := by
  refine ⟨?_, ?_, ?_, ?_⟩ <;> simp [submitRequest, handleSubmit, h]

/-- Closed instance of `C3_submit_nonblank` at a concrete state. -/
theorem C3_submit_nonblank_witness :
    handleSubmit ⟨[⟨1, "A", "t"⟩], false, none, "B", none⟩ (.ok ⟨2, "B", "u"⟩)
      = ⟨[⟨1, "A", "t"⟩, ⟨2, "B", "u"⟩], false, none, "", none⟩ :=
  (C3_submit_nonblank ⟨[⟨1, "A", "t"⟩], false, none, "B", none⟩
    ⟨2, "B", "u"⟩ "m" (by decide)).2.1

/-- C5: submitting with a draft that is blank after trimming issues no
request and leaves the whole state unchanged. -/
theorem C5_blank_submit_noop (s : AppState) (resp : FetchResult Item)
    (h : jsTrim s.newItem = "") :
    submitRequest s = none ∧ handleSubmit s resp = s := by
  constructor <;> simp [submitRequest, handleSubmit, h]

/-- Closed instance of `C5_blank_submit_noop` at a whitespace-only draft. -/
theorem C5_blank_submit_noop_witness :
    submitRequest { initialState with newItem := "   " } = none
    ∧ handleSubmit { initialState with newItem := "   " } (.ok ⟨3, "X", "t"⟩)
        = { initialState with newItem := "   " } :=
  C5_blank_submit_noop { initialState with newItem := "   " } (.ok ⟨3, "X", "t"⟩) (by decide)

/-- C8: a successful Create submission does not clear a previously set
error — the success branch of `handleSubmit` never touches `error` — so the
list region stays hidden despite the successful add. -/
theorem C8_submit_keeps_error (s : AppState) (e : String) (item : Item)
    (herr : s.error = some e) (h : jsTrim s.newItem ≠ "") :
    (handleSubmit s (.ok item)).error = some e
    ∧ (render (handleSubmit s (.ok item))).listRegion = ListRegion.hidden := by
  constructor <;> simp [handleSubmit, render, h, herr]

/-- Closed instance of `C8_submit_keeps_error` at a concrete errored
state. -/
theorem C8_submit_keeps_error_witness :
    (handleSubmit ⟨[], false, some "Error deleting item: x", "B", none⟩
        (.ok ⟨2, "B", "u"⟩)).error
      = some "Error deleting item: x" :=
  (C8_submit_keeps_error ⟨[], false, some "Error deleting item: x", "B", none⟩
    "Error deleting item: x" ⟨2, "B", "u"⟩ rfl (by decide)).1

/-- C9: the Create request carries the draft untrimmed: whenever the draft
is non-blank after trimming, the request body's name is exactly the draft,
leading and trailing whitespace included. -/
theorem C9_body_untrimmed (s : AppState) (h : jsTrim s.newItem ≠ "") :
    submitRequest s = some (ApiRequest.create s.newItem) := by
  simp [submitRequest, h]

/-- Closed instance of `C9_body_untrimmed`: the draft `"  x "` is sent as
`"  x "`, not as its trim `"x"`. -/
theorem C9_body_untrimmed_witness :
    submitRequest { initialState with newItem := "  x " }
      = some (ApiRequest.create "  x ")
    ∧ "  x " ≠ "x" :=
  ⟨C9_body_untrimmed { initialState with newItem := "  x " } (by decide), by decide⟩

/-- Helper: when the list has pairwise-distinct ids and contains `item`,
filtering out `item.id` removes exactly `item` and keeps every other
element unchanged. -/
theorem filter_ne_id_eq_erase (l : List Item) (item : Item)
    (hmem : item ∈ l) (huniq : l.Pairwise (fun a b => a.id ≠ b.id)) :
    l.filter (fun it => it.id != item.id) = l.erase item := by
  induction l with
  | nil => cases hmem
  | cons a t ih =>
    rcases List.mem_cons.mp hmem with heq | hmem'
    · subst heq
      rw [List.erase_cons_head]
      have ht : ∀ b ∈ t, (b.id != item.id) = true := by
        intro b hb
        simpa using ((List.pairwise_cons.mp huniq).1 b hb).symm
      rw [List.filter_cons]
      simp only [bne_self_eq_false, if_false]
      exact List.filter_eq_self.mpr ht
    · have hane : a.id ≠ item.id := (List.pairwise_cons.mp huniq).1 item hmem'
      have hanei : (a == item) = false := by
        simp only [beq_eq_false_iff_ne]
        intro h
        exact hane (by rw [h])
      rw [List.filter_cons]
      simp only [bne_iff_ne, ne_eq, hane, not_false_eq_true, if_true]
      rw [List.erase_cons_tail, ih hmem' (List.pairwise_cons.mp huniq).2]
      simp [hanei]

/-- C1 counterexample: at the state with `loading=true` and `error` set,
the render mounts both the spinner and the error alert — the error region
is not suppressed while loading (`App.js` line 147 has no loading guard). -/
theorem C1_counterexample :
    (render ⟨[], true, some "Failed to fetch data: boom", "", none⟩).spinner = true
    ∧ (render ⟨[], true, some "Failed to fetch data: boom", "", none⟩).errorAlert
        = some "Failed to fetch data: boom" :=
  ⟨rfl, rfl⟩

/-- C1 (amended): the spinner is shown exactly while loading; the error
alert is shown exactly when `error` is set, regardless of loading; the list
region is suppressed while loading and while `error` is set, and otherwise
shows the table of items when non-empty and the empty-state message when
empty. -/
theorem C1_render_rules (s : AppState) :
    (render s).spinner = s.loading
    ∧ (render s).errorAlert = s.error
    ∧ (s.loading = true → (render s).listRegion = ListRegion.hidden)
    ∧ (s.loading = false → s.error ≠ none →
        (render s).listRegion = ListRegion.hidden ∧ (render s).errorAlert ≠ none)
    ∧ (s.loading = false → s.error = none → s.data ≠ [] →
        (render s).listRegion = ListRegion.table s.data)
    ∧ (s.loading = false → s.error = none → s.data = [] →
        (render s).listRegion = ListRegion.emptyMessage) := by
  refine ⟨rfl, rfl, fun hl => ?_, fun hl he => ⟨?_, ?_⟩, fun hl he hd => ?_, fun hl he hd => ?_⟩
  · simp [render, hl]
  · simp [render, he]
  · simpa [render] using he
  · simp [render, hl, he, List.length_pos.mpr hd]
  · simp [render, hl, he, hd]

/-- Closed instance of `C1_render_rules`: hidden list while loading, and
the table once loading ended without error on a non-empty list. -/
theorem C1_render_rules_witness :
    (render ⟨[], true, none, "", none⟩).listRegion = ListRegion.hidden
    ∧ (render ⟨[⟨1, "A", "t"⟩], false, none, "", none⟩).listRegion
        = ListRegion.table [⟨1, "A", "t"⟩] :=
  ⟨(C1_render_rules ⟨[], true, none, "", none⟩).2.2.1 rfl,
   (C1_render_rules ⟨[⟨1, "A", "t"⟩], false, none, "", none⟩).2.2.2.2.1
     rfl rfl (by decide)⟩

/-- C4: clicking delete for an item sets `deleteLoading` to its id —
disabling and relabeling exactly that row's button — and issues the Delete
request; an ok response removes exactly that item (ids being pairwise
distinct) and clears `error`; a non-ok response or a rejection stores an
error prefixed `Error deleting item: ` and leaves the items unchanged; in
every case `deleteLoading` is cleared at the end. -/
theorem C4_delete_flow (s : AppState) (item : Item) (msg : String)
    (hmem : item ∈ s.data)
    (huniq : s.data.Pairwise (fun a b => a.id ≠ b.id)) :
    (handleDeleteStart s item.id).deleteLoading = some item.id
    ∧ rowDeleteButton (handleDeleteStart s item.id) item
        = { disabled := true, label := "Deleting..." }
    ∧ (∀ other : Item, other.id ≠ item.id →
        rowDeleteButton (handleDeleteStart s item.id) other
          = { disabled := false, label := "Delete" })
    ∧ deleteRequest item.id = ApiRequest.delete item.id
    ∧ handleDelete s item.id (.ok ())
        = { s with
            data := s.data.erase item
            error := none
            deleteLoading := none }
    ∧ handleDelete s item.id .httpError
        = { s with
            error := some ("Error deleting item: " ++ "Failed to delete item")
            deleteLoading := none }
    ∧ handleDelete s item.id (.reject msg)
        = { s with
            error := some ("Error deleting item: " ++ msg)
            deleteLoading := none } := by
  have hfe := filter_ne_id_eq_erase s.data item hmem huniq
  refine ⟨rfl, ?_, fun other hne => ?_, rfl, ?_, ?_, ?_⟩
  · simp [rowDeleteButton, handleDeleteStart]
  · simp [rowDeleteButton, handleDeleteStart, (hne.symm : item.id ≠ other.id)]
  · simp [handleDelete, handleDeleteStart, handleDeleteSettle, hfe]
  · simp [handleDelete, handleDeleteStart, handleDeleteSettle]
  · simp [handleDelete, handleDeleteStart, handleDeleteSettle]

/-- Closed instance of `C4_delete_flow` at a concrete two-item state. -/
theorem C4_delete_flow_witness :
    handleDelete ⟨[⟨1, "A", "t"⟩, ⟨2, "B", "u"⟩], false, none, "", none⟩ 1 (.ok ())
      = ⟨[⟨2, "B", "u"⟩], false, none, "", none⟩ :=
  (C4_delete_flow ⟨[⟨1, "A", "t"⟩, ⟨2, "B", "u"⟩], false, none, "", none⟩
    ⟨1, "A", "t"⟩ "m" (by decide) (by decide)).2.2.2.2.1

/-- Helper: `applyEvent` never changes `loading`: no post-mount handler in
`App.js` calls `setLoading`. -/
theorem applyEvent_loading (s : AppState) (e : Event) :
    (applyEvent s e).loading = s.loading := by
  cases e with
  | submit resp =>
    by_cases h : jsTrim s.newItem = ""
    · simp [applyEvent, handleSubmit, h]
    · cases resp <;> simp [applyEvent, handleSubmit, h]
  | delete id resp =>
    cases resp <;> simp [applyEvent, handleDelete, handleDeleteStart, handleDeleteSettle]
  | editDraft t => simp [applyEvent]

/-- Helper: a whole sequence of post-mount events leaves `loading` where it
was. -/
theorem runEvents_loading (s : AppState) (es : List Event) :
    (runEvents s es).loading = s.loading := by
  induction es generalizing s with
  | nil => rfl
  | cons e t ih =>
    have hstep : runEvents s (e :: t) = runEvents (applyEvent s e) t := rfl
    rw [hstep, ih, applyEvent_loading]

/-- C10: only `fetchData` (run once on mount) touches `loading`:
`handleSubmit` and `handleDelete` preserve it, a settled `fetchData` always
leaves it false, and once it is false it stays false across every sequence
of create, delete and draft-edit events. -/
theorem C10_loading_only_initial (s : AppState) (es : List Event)
    (h : s.loading = false) :
    (∀ resp, (handleSubmit s resp).loading = s.loading)
    ∧ (∀ id, (handleDeleteStart s id).loading = s.loading)
    ∧ (∀ id resp, (handleDelete s id resp).loading = s.loading)
    ∧ (∀ (t : AppState) (resp : FetchResult (List Item)), (fetchData t resp).loading = false)
    ∧ (runEvents s es).loading = false := by
  refine ⟨fun resp => applyEvent_loading s (.submit resp),
          fun id => rfl,
          fun id resp => applyEvent_loading s (.delete id resp),
          fun t resp => ?_,
          by rw [runEvents_loading]; exact h⟩
  cases resp <;> rfl

/-- Closed instance of `C10_loading_only_initial`: after a settled mount
fetch followed by an edit, a create and a delete, `loading` is still
false. -/
theorem C10_loading_only_initial_witness :
    (runEvents ⟨[], false, none, "", none⟩
        [Event.editDraft "A", Event.submit (.ok ⟨1, "A", "t"⟩),
         Event.delete 1 (.ok ())]).loading = false :=
  (C10_loading_only_initial ⟨[], false, none, "", none⟩
    [Event.editDraft "A", Event.submit (.ok ⟨1, "A", "t"⟩),
     Event.delete 1 (.ok ())] rfl).2.2.2.2

/-- C6: a Create whose `name` is absent, not a string, empty or
whitespace-only returns 400 `Item name is required`, leaves the store
untouched, and a subsequent List returns the same list as before. -/
theorem C6_create_validation (store : Store) (now str : String) (body : NameField)
    (h : body = NameField.absent ∨ body = NameField.nonString
         ∨ (body = NameField.str str ∧ jsTrim str = "")) :
    createItem store body now = (store, ApiResponse.errorBody 400 "Item name is required")
    ∧ listItems (createItem store body now).1 = listItems store := by
  rcases h with rfl | rfl | ⟨rfl, hblank⟩
  · exact ⟨rfl, rfl⟩
  · exact ⟨rfl, rfl⟩
  · constructor <;> simp [createItem, hblank]

/-- Closed instance of `C6_create_validation` at a whitespace-only name on
a one-item store. -/
theorem C6_create_validation_witness :
    createItem ⟨[⟨1, "A", "t"⟩], 2⟩ (NameField.str "   ") "now"
      = (⟨[⟨1, "A", "t"⟩], 2⟩, ApiResponse.errorBody 400 "Item name is required")
    ∧ listItems (createItem ⟨[⟨1, "A", "t"⟩], 2⟩ (NameField.str "   ") "now").1
        = listItems ⟨[⟨1, "A", "t"⟩], 2⟩ :=
  C6_create_validation ⟨[⟨1, "A", "t"⟩], 2⟩ "now" "   " (NameField.str "   ")
    (Or.inr (Or.inr ⟨rfl, by decide⟩))

/-- Helper: `deleteItem` on a store in which no row's printed id matches
the path parameter returns 404 and leaves the store unchanged. -/
theorem deleteItem_miss (store : Store) (idp : String)
    (h : ∀ it ∈ store.items, toString it.id ≠ idp) :
    deleteItem store idp = (store, ApiResponse.errorBody 404 "Item not found") := by
  have hf : store.items.find? (fun it => toString it.id == idp) = none := by
    rw [List.find?_eq_none]
    intro x hx
    simpa using h x hx
  simp [deleteItem, hf]

/-- Helper: `find?` on a list extended with a fresh item locates that
item. -/
theorem find_id_append_fresh (l : List Item) (item : Item)
    (h : ∀ it ∈ l, toString it.id ≠ toString item.id) :
    (l ++ [item]).find? (fun it => toString it.id == toString item.id) = some item := by
  induction l with
  | nil => simp
  | cons a t ih =>
    have ha : (toString a.id == toString item.id) = false := by
      simpa using h a (List.mem_cons_self a t)
    rw [List.cons_append, List.find?_cons, ha]
    exact ih fun x hx => h x (List.mem_cons_of_mem a hx)

/-- Helper: filtering out a fresh item's printed id from the extended list
gives back the original list. -/
theorem filter_id_append_fresh (l : List Item) (item : Item)
    (h : ∀ it ∈ l, toString it.id ≠ toString item.id) :
    (l ++ [item]).filter (fun it => toString it.id != toString item.id) = l := by
  rw [List.filter_append]
  have h1 : l.filter (fun it => toString it.id != toString item.id) = l :=
    List.filter_eq_self.mpr (fun a ha => by simpa using h a ha)
  have h2 : [item].filter (fun it => toString it.id != toString item.id) = [] := by simp
  rw [h1, h2, List.append_nil]

/-- C7: after a successful Create the first Delete of the assigned id
returns 200 `Item deleted successfully` and removes exactly the new row; a
second Delete of the same id returns 404 `Item not found` with no change,
as does any Delete of an id that never matched a row — the handler looks
the item up first and answers 404 without deleting when it is absent. -/
theorem C7_delete_lifecycle (store : Store) (name now : String)
    (hname : jsTrim name ≠ "")
    (hfresh : ∀ it ∈ store.items, toString it.id ≠ toString store.nextId) :
    (createItem store (NameField.str name) now).2
        = ApiResponse.itemBody 201 ⟨store.nextId, name, now⟩
    ∧ deleteItem (createItem store (NameField.str name) now).1 (toString store.nextId)
        = (⟨store.items, store.nextId + 1⟩,
           ApiResponse.messageBody 200 "Item deleted successfully")
    ∧ deleteItem ⟨store.items, store.nextId + 1⟩ (toString store.nextId)
        = (⟨store.items, store.nextId + 1⟩, ApiResponse.errorBody 404 "Item not found")
    ∧ (∀ idp, (∀ it ∈ store.items, toString it.id ≠ idp) →
        deleteItem store idp = (store, ApiResponse.errorBody 404 "Item not found")) := by
  have hnew : (createItem store (NameField.str name) now).1
      = Store.mk (store.items ++ [⟨store.nextId, name, now⟩]) (store.nextId + 1) := by
    simp [createItem, hname]
  refine ⟨by simp [createItem, hname], ?_, ?_, fun idp hmiss => deleteItem_miss store idp hmiss⟩
  · rw [hnew]
    have hfind := find_id_append_fresh store.items ⟨store.nextId, name, now⟩ hfresh
    have hfilt := filter_id_append_fresh store.items ⟨store.nextId, name, now⟩ hfresh
    simp only [deleteItem, hfind, hfilt, List.length_append, List.length_cons,
      List.length_nil]
    simp
  · exact deleteItem_miss ⟨store.items, store.nextId + 1⟩ (toString store.nextId) hfresh

/-- Closed instance of `C7_delete_lifecycle`: create then delete then
delete again on a concrete one-item store. -/
theorem C7_delete_lifecycle_witness :
    deleteItem (createItem ⟨[⟨1, "A", "t"⟩], 2⟩ (NameField.str "B") "u").1 (toString 2)
      = (⟨[⟨1, "A", "t"⟩], 3⟩, ApiResponse.messageBody 200 "Item deleted successfully")
    ∧ deleteItem ⟨[⟨1, "A", "t"⟩], 3⟩ (toString 2)
      = (⟨[⟨1, "A", "t"⟩], 3⟩, ApiResponse.errorBody 404 "Item not found") :=
  ⟨(C7_delete_lifecycle ⟨[⟨1, "A", "t"⟩], 2⟩ "B" "u" (by decide) (by decide)).2.1,
   (C7_delete_lifecycle ⟨[⟨1, "A", "t"⟩], 2⟩ "B" "u" (by decide) (by decide)).2.2.1⟩

end ItemApp
